import Mathlib

/-!
Verification of the lead-prospecting pipeline in `app.py` (consulta-cnpj).

The Python source is shallowly embedded: pure helpers become Lean functions;
HTTP calls become lookups in an explicit `World` oracle plus an explicit log
of the requests issued; Python dicts with a fixed key set become structures,
with `""` standing for an absent/empty string value and `Option` for the
empty dict `\x7b\x7d`.  Python's `\d`/`\D` regex classes are modelled with
`Char.isDigit` (the inputs handled by the tool are ASCII identifiers).
-/

namespace ConsultaCnpj

/-- `re.sub(r"\D", "", s)`: keep only the digit characters of `s`, in order. -/
def so_digitos (s : String) : String :=
  String.mk (s.data.filter Char.isDigit)

/-- `limpa_cnpj` from `app.py` (lines 55-57): `re.sub(r"\D", "", str(cnpj or ""))`.
`none` models Python `None`; `cnpj or ""` maps `None` (and `""`) to `""`. -/
def limpa_cnpj (cnpj : Option String) : String :=
  so_digitos (cnpj.getD "")

/-- `formata_cnpj` from `app.py` (lines 59-64): punctuate a 14-digit CNPJ as
`xx.xxx.xxx/xxxx-xx`; any other input is returned unchanged. -/
def formata_cnpj (cnpj : String) : String :=
  let c := limpa_cnpj (some cnpj)
  if c.length = 14 then
    String.mk (c.data.take 2) ++ "." ++ String.mk ((c.data.drop 2).take 3) ++ "."
      ++ String.mk ((c.data.drop 5).take 3) ++ "/" ++ String.mk ((c.data.drop 8).take 4)
      ++ "-" ++ String.mk (c.data.drop 12)
  else cnpj

lemma so_digitos_data (s : String) : (so_digitos s).data = s.data.filter Char.isDigit := rfl

lemma limpa_cnpj_some_data (s : String) :
    (limpa_cnpj (some s)).data = s.data.filter Char.isDigit := rfl

lemma filter_eq_self_of_all {p : Char → Bool} {l : List Char} (h : ∀ x ∈ l, p x) :
    l.filter p = l := List.filter_eq_self.mpr h

/-- Filtering the digits out of a formatted CNPJ recovers exactly the digit list. -/
lemma filter_digits_formatted (c : List Char) (hall : ∀ x ∈ c, Char.isDigit x) :
    List.filter Char.isDigit
      (c.take 2 ++ ('.' :: ((c.drop 2).take 3 ++ ('.' :: ((c.drop 5).take 3 ++
        ('/' :: ((c.drop 8).take 4 ++ ('-' :: c.drop 12)))))))) = c := by
  have htake : ∀ n : Nat, (c.take n).filter Char.isDigit = c.take n := fun n =>
    filter_eq_self_of_all (fun x hx => hall x (List.mem_of_mem_take hx))
  have hdt : ∀ n m : Nat, ((c.drop n).take m).filter Char.isDigit = (c.drop n).take m :=
    fun n m => filter_eq_self_of_all
      (fun x hx => hall x (List.mem_of_mem_drop (List.mem_of_mem_take hx)))
  have hdrop : ∀ n : Nat, (c.drop n).filter Char.isDigit = c.drop n := fun n =>
    filter_eq_self_of_all (fun x hx => hall x (List.mem_of_mem_drop hx))
  have hdot : Char.isDigit '.' = false := by decide
  have hslash : Char.isDigit '/' = false := by decide
  have hdash : Char.isDigit '-' = false := by decide
  simp only [List.filter_append, List.filter_cons, hdot, hslash, hdash, if_neg,
    Bool.false_eq_true, not_false_eq_true, htake, hdt, hdrop]
  have e8 : (c.drop 8).take 4 ++ c.drop 12 = c.drop 8 := by
    have h := List.take_append_drop 4 (c.drop 8)
    rwa [List.drop_drop, show (4 + 8 : Nat) = 12 from rfl] at h
  have e5 : (c.drop 5).take 3 ++ c.drop 8 = c.drop 5 := by
    have h := List.take_append_drop 3 (c.drop 5)
    rwa [List.drop_drop, show (3 + 5 : Nat) = 8 from rfl] at h
  have e2 : (c.drop 2).take 3 ++ c.drop 5 = c.drop 2 := by
    have h := List.take_append_drop 3 (c.drop 2)
    rwa [List.drop_drop, show (3 + 2 : Nat) = 5 from rfl] at h
  rw [e8, e5, e2, List.take_append_drop]

/-- C9: `limpa_cnpj` returns, for any input (including `None`), exactly the digit
characters of the input in order; for every string with exactly 14 digit
characters, `limpa_cnpj (formata_cnpj s)` is those 14 digits, and for every
other input `formata_cnpj` returns its argument unchanged. -/
theorem limpa_formata_cnpj_roundtrip :
    limpa_cnpj none = "" ∧
    (∀ s : String, (limpa_cnpj (some s)).data = s.data.filter Char.isDigit) ∧
    (∀ s : String, (s.data.filter Char.isDigit).length = 14 →
      limpa_cnpj (some (formata_cnpj s)) = String.mk (s.data.filter Char.isDigit)) ∧
    (∀ s : String, (s.data.filter Char.isDigit).length ≠ 14 → formata_cnpj s = s) := by
  refine ⟨rfl, fun s => rfl, fun s h => ?_, fun s h => ?_⟩
  · have hc : (limpa_cnpj (some s)).length = 14 := by
      show (limpa_cnpj (some s)).data.length = 14
      rw [limpa_cnpj_some_data]; exact h
    apply String.ext
    show (limpa_cnpj (some (formata_cnpj s))).data = _
    rw [limpa_cnpj_some_data]
    have hform : (formata_cnpj s).data =
        (limpa_cnpj (some s)).data.take 2 ++ ('.' ::
          (((limpa_cnpj (some s)).data.drop 2).take 3 ++ ('.' ::
            (((limpa_cnpj (some s)).data.drop 5).take 3 ++ ('/' ::
              (((limpa_cnpj (some s)).data.drop 8).take 4 ++ ('-' ::
                (limpa_cnpj (some s)).data.drop 12))))))) := by
      simp only [formata_cnpj, if_pos hc, String.data_append]
      simp [List.append_assoc]
    rw [hform, limpa_cnpj_some_data]
    exact filter_digits_formatted _ (fun x hx => List.of_mem_filter hx)
  · have hc : ¬ (limpa_cnpj (some s)).length = 14 := by
      show ¬ (limpa_cnpj (some s)).data.length = 14
      rw [limpa_cnpj_some_data]; exact h
    simp only [formata_cnpj, if_neg hc]

/-- Witness for C9 at the concrete formatted input `"12.345.678/0001-90"`. -/
theorem limpa_formata_cnpj_roundtrip_witness :
    ("12.345.678/0001-90".data.filter Char.isDigit).length = 14 ∧
    limpa_cnpj (some (formata_cnpj "12.345.678/0001-90")) =
      String.mk ("12.345.678/0001-90".data.filter Char.isDigit) :=
  ⟨by decide, limpa_formata_cnpj_roundtrip.2.2.1 "12.345.678/0001-90" (by decide)⟩

/-- Python `str.strip()`: drop leading and trailing whitespace. -/
def strip_espacos (s : String) : String :=
  String.mk (((s.data.dropWhile Char.isWhitespace).reverse.dropWhile Char.isWhitespace).reverse)

/-- Outcome of one HTTP request as seen by a registry adapter: `fail` is
`http_get` returning `None` (timeout, non-2xx, transport error), `badJson` is
an exception raised while decoding or processing the body (caught by the
adapter's `try`/`except`, which returns the empty dict), `ok` is a decoded
payload. -/
inductive HttpOutcome (α : Type) where
  | fail : HttpOutcome α
  | badJson : HttpOutcome α
  | ok : α → HttpOutcome α
deriving DecidableEq, Repr

/-- The fields of a BrasilAPI response body that `consultar_cnpj_brasilapi`
reads; a missing key is modelled as `""` (the `data.get(k, "")` default). -/
structure BrasilData where
  cnpj : String
  razao_social : String
  nome_fantasia : String
  descricao_situacao_cadastral : String
  cnae_fiscal : String
  cnae_fiscal_descricao : String
  ddd_telefone_1 : String
  telefone_1 : String
  email : String
  logradouro : String
  numero : String
  bairro : String
  municipio : String
  uf : String
  cep : String
deriving DecidableEq, Repr

/-- The fields of a ReceitaWS response body that `consultar_cnpj_receitaws`
reads.  `atividade_code`/`atividade_text` are the first element of
`atividade_principal` (a payload shape that makes the indexing raise is
subsumed by `HttpOutcome.badJson`). -/
structure ReceitaData where
  status : String
  cnpj : String
  nome : String
  fantasia : String
  situacao : String
  atividade_code : String
  atividade_text : String
  telefone : String
  email : String
  logradouro : String
  numero : String
  bairro : String
  municipio : String
  uf : String
  cep : String
deriving DecidableEq, Repr

/-- The fields of a CNPJ.ws response body that `consultar_cnpj_cnpjws` reads
(`estabelecimento` subobject flattened, `cidade.nome` and `estado.sigla`
inlined). -/
structure CnpjWsData where
  razao_social : String
  cnpj : String
  nome_fantasia : String
  situacao_cadastral : String
  ddd1 : String
  telefone1 : String
  email : String
  tipo_logradouro : String
  logradouro : String
  numero : String
  bairro : String
  cidade_nome : String
  estado_sigla : String
  cep : String
  atividade_id : String
  atividade_descricao : String
deriving DecidableEq, Repr

/-- The dict returned by the three `consultar_cnpj_*` adapters, as a record;
field names transliterate the dict keys ("CNPJ", "Razão Social", ...).
`origemDescoberta` is the "Origem da Descoberta" key that `main` adds during
enrichment; the adapters leave it `""` (absent). -/
structure Registro where
  CNPJ : String
  razaoSocial : String
  nomeFantasia : String
  situacao : String
  cnaePrincipal : String
  telefone : String
  email : String
  endereco : String
  bairro : String
  cidade : String
  uf : String
  cep : String
  fonte : String
  origemDescoberta : String
deriving DecidableEq, Repr

/-- Record construction of `consultar_cnpj_brasilapi` (lines 96-114). -/
def registro_brasilapi (d : BrasilData) : Registro :=
  let telefone := if d.ddd_telefone_1 ≠ "" then "(" ++ d.ddd_telefone_1 ++ ") " ++ d.telefone_1 else ""
  { CNPJ := formata_cnpj d.cnpj
    razaoSocial := d.razao_social
    nomeFantasia := d.nome_fantasia
    situacao := d.descricao_situacao_cadastral
    cnaePrincipal := d.cnae_fiscal ++ " - " ++ d.cnae_fiscal_descricao
    telefone := strip_espacos telefone
    email := d.email
    endereco := d.logradouro ++ ", " ++ d.numero
    bairro := d.bairro
    cidade := d.municipio
    uf := d.uf
    cep := d.cep
    fonte := "BrasilAPI"
    origemDescoberta := "" }

/-- Record construction of `consultar_cnpj_receitaws` (lines 130-153):
`status == "ERROR"` yields the empty dict, and a phone equal to the blank
placeholder `"(  )     -     "` is replaced by `""`. -/
def registro_receitaws (d : ReceitaData) : Option Registro :=
  if d.status = "ERROR" then none
  else
    let telefone := if d.telefone ≠ "" ∧ d.telefone ≠ "(  )     -     " then d.telefone else ""
    some
      { CNPJ := formata_cnpj d.cnpj
        razaoSocial := d.nome
        nomeFantasia := d.fantasia
        situacao := d.situacao
        cnaePrincipal := d.atividade_code ++ " - " ++ d.atividade_text
        telefone := telefone
        email := d.email
        endereco := d.logradouro ++ ", " ++ d.numero
        bairro := d.bairro
        cidade := d.municipio
        uf := d.uf
        cep := d.cep
        fonte := "ReceitaWS"
        origemDescoberta := "" }

/-- Record construction of `consultar_cnpj_cnpjws` (lines 170-191). -/
def registro_cnpjws (d : CnpjWsData) : Registro :=
  let telefone := if d.ddd1 ≠ "" ∧ d.telefone1 ≠ "" then "(" ++ d.ddd1 ++ ") " ++ d.telefone1 else ""
  { CNPJ := formata_cnpj d.cnpj
    razaoSocial := d.razao_social
    nomeFantasia := d.nome_fantasia
    situacao := d.situacao_cadastral
    cnaePrincipal := d.atividade_id ++ " - " ++ d.atividade_descricao
    telefone := telefone
    email := d.email
    endereco := d.tipo_logradouro ++ " " ++ d.logradouro ++ ", " ++ d.numero
    bairro := d.bairro
    cidade := d.cidade_nome
    uf := d.estado_sigla
    cep := d.cep
    fonte := "CNPJ.ws"
    origemDescoberta := "" }

/-- An anchor element of a scraped page: `href` attribute and stripped text. -/
structure Link where
  href : String
  texto : String
deriving DecidableEq, Repr

/-- The parts of the cnpja.com CNAE page that the scraper reads: all anchors,
and all tables as lists of rows of stripped cell texts. -/
structure PaginaCnpja where
  links : List Link
  tabelas : List (List (List String))
deriving DecidableEq, Repr

/-- A card matched by `buscar_empresas_consultacnpj_alternativo`'s selectors:
`nome` is the text of the name element when one matched, `cnpj_texto` the text
of the document element when one matched. -/
structure Card where
  nome : Option String
  cnpj_texto : Option String
deriving DecidableEq, Repr

/-- A consultacnpj.com result page: the cards matched by the CSS selectors. -/
structure PaginaConsulta where
  cards : List Card
deriving DecidableEq, Repr

/-- Which registry endpoint an HTTP request targets. -/
inductive Fonte where
  | brasilapi : Fonte
  | receitaws : Fonte
  | cnpjws : Fonte
deriving DecidableEq, Repr

/-- One outbound registry HTTP request: endpoint plus the cleaned CNPJ that
determines its URL. -/
structure Requisicao where
  fonte : Fonte
  cnpj : String
deriving DecidableEq, Repr

/-- The external world: one oracle per remote endpoint, keyed by the request
data that determines the URL.  `pagina_consulta` is keyed by cleaned CNAE,
lower-cased UF and the index (0-3) of the attempted URL variant, abstracting
the four literal URL strings of `urls_tentativas`. -/
structure World where
  brasilapi : String → HttpOutcome BrasilData
  receitaws : String → HttpOutcome ReceitaData
  cnpjws : String → HttpOutcome CnpjWsData
  pagina_cnpja : String → Option PaginaCnpja
  pagina_consulta : String → String → Nat → Option PaginaConsulta

/-- `consultar_cnpj_brasilapi` (lines 84-117) with an explicit request log:
a short CNPJ returns the empty dict before any HTTP request is issued. -/
def consultar_cnpj_brasilapi (w : World) (cnpj : Option String) :
    Option Registro × List Requisicao :=
  let c := limpa_cnpj cnpj
  if c.length ≠ 14 then (none, [])
  else
    match w.brasilapi c with
    | .fail => (none, [⟨.brasilapi, c⟩])
    | .badJson => (none, [⟨.brasilapi, c⟩])
    | .ok d => (some (registro_brasilapi d), [⟨.brasilapi, c⟩])

/-- `consultar_cnpj_receitaws` (lines 119-156) with an explicit request log. -/
def consultar_cnpj_receitaws (w : World) (cnpj : Option String) :
    Option Registro × List Requisicao :=
  let c := limpa_cnpj cnpj
  if c.length ≠ 14 then (none, [])
  else
    match w.receitaws c with
    | .fail => (none, [⟨.receitaws, c⟩])
    | .badJson => (none, [⟨.receitaws, c⟩])
    | .ok d => (registro_receitaws d, [⟨.receitaws, c⟩])

/-- `consultar_cnpj_cnpjws` (lines 158-194) with an explicit request log. -/
def consultar_cnpj_cnpjws (w : World) (cnpj : Option String) :
    Option Registro × List Requisicao :=
  let c := limpa_cnpj cnpj
  if c.length ≠ 14 then (none, [])
  else
    match w.cnpjws c with
    | .fail => (none, [⟨.cnpjws, c⟩])
    | .badJson => (none, [⟨.cnpjws, c⟩])
    | .ok d => (some (registro_cnpjws d), [⟨.cnpjws, c⟩])

/-- The acceptance test of the fallback loop: `resultado and resultado.get("CNPJ")`
— a non-empty dict whose "CNPJ" value is a non-empty string. -/
def sucesso : Option Registro → Bool
  | none => false
  | some r => r.CNPJ != ""

/-- A registry adapter as consumed by the fallback loop. -/
def Api : Type := World → Option String → Option Registro × List Requisicao

/-- The `for api_func in apis` loop of `consultar_cnpj_multiplas_fontes`
(lines 200-209), threading the request log. -/
def loop_apis (w : World) (cnpj : Option String) : List Api → Option Registro × List Requisicao
  | [] => (none, [])
  | api_func :: rest =>
      let resultado := api_func w cnpj
      if sucesso resultado.1 then resultado
      else
        let prox := loop_apis w cnpj rest
        (prox.1, resultado.2 ++ prox.2)

/-- The fixed provider priority list (line 198). -/
def apis : List Api := [consultar_cnpj_brasilapi, consultar_cnpj_receitaws, consultar_cnpj_cnpjws]

/-- `consultar_cnpj_multiplas_fontes` (lines 196-209). -/
def consultar_cnpj_multiplas_fontes (w : World) (cnpj : Option String) :
    Option Registro × List Requisicao :=
  loop_apis w cnpj apis

/-- The same fallback loop over abstract per-provider outcomes, where
`Except.error` models `api_func(cnpj)` raising (the `except ...: continue`
branch of lines 206-207). -/
def loop_resultados : List (Except Unit (Option Registro)) → Option Registro
  | [] => none
  | .error _ :: rest => loop_resultados rest
  | .ok resultado :: rest => if sucesso resultado then resultado else loop_resultados rest

lemma fonte_log_brasilapi (w : World) (cnpj : Option String) :
    ∀ q ∈ (consultar_cnpj_brasilapi w cnpj).2, q.fonte = Fonte.brasilapi := by
  intro q hq
  by_cases h : (limpa_cnpj cnpj).length ≠ 14
  · simp [consultar_cnpj_brasilapi, h] at hq
  · rcases hw : w.brasilapi (limpa_cnpj cnpj) with _ | _ | d <;>
      simp [consultar_cnpj_brasilapi, h, hw] at hq <;> simp [hq]

lemma fonte_log_receitaws (w : World) (cnpj : Option String) :
    ∀ q ∈ (consultar_cnpj_receitaws w cnpj).2, q.fonte = Fonte.receitaws := by
  intro q hq
  by_cases h : (limpa_cnpj cnpj).length ≠ 14
  · simp [consultar_cnpj_receitaws, h] at hq
  · rcases hw : w.receitaws (limpa_cnpj cnpj) with _ | _ | d <;>
      simp [consultar_cnpj_receitaws, h, hw] at hq <;> simp [hq]

lemma sucesso_ne_none {x : Option Registro} (hx : sucesso x = true) : x ≠ none := by
  cases x <;> simp [sucesso] at hx ⊢

/-- A world where every remote endpoint fails. -/
def mundo_falha : World :=
  { brasilapi := fun _ => .fail
    receitaws := fun _ => .fail
    cnpjws := fun _ => .fail
    pagina_cnpja := fun _ => none
    pagina_consulta := fun _ _ _ => none }

/-- A sample decoded BrasilAPI payload. -/
def dados_brasil_exemplo : BrasilData :=
  { cnpj := "19131243000197"
    razao_social := "OPEN KNOWLEDGE BRASIL"
    nome_fantasia := "REDE PELO CONHECIMENTO LIVRE"
    descricao_situacao_cadastral := "ATIVA"
    cnae_fiscal := "9430800"
    cnae_fiscal_descricao := "Atividades de associacoes de defesa de direitos sociais"
    ddd_telefone_1 := "91"
    telefone_1 := "32313232"
    email := "contato@ok.org.br"
    logradouro := "PAULISTA"
    numero := "37"
    bairro := "BELA VISTA"
    municipio := "SAO PAULO"
    uf := "SP"
    cep := "01311902" }

/-- A world where BrasilAPI answers and the other registry endpoints fail. -/
def mundo_brasil_ok : World :=
  { brasilapi := fun _ => .ok dados_brasil_exemplo
    receitaws := fun _ => .fail
    cnpjws := fun _ => .fail
    pagina_cnpja := fun _ => none
    pagina_consulta := fun _ _ _ => none }

/-- C1: the multi-source lookup consults BrasilAPI, then ReceitaWS, then
CNPJ.ws, returns the first answer that is a non-empty dict with a populated
"CNPJ" field, and never issues requests to providers after the first
success. -/
theorem multiplas_fontes_prioridade (w : World) (cnpj : Option String) :
    (sucesso (consultar_cnpj_brasilapi w cnpj).1 = true →
      consultar_cnpj_multiplas_fontes w cnpj = consultar_cnpj_brasilapi w cnpj ∧
      ∀ q ∈ (consultar_cnpj_multiplas_fontes w cnpj).2, q.fonte = Fonte.brasilapi) ∧
    (sucesso (consultar_cnpj_brasilapi w cnpj).1 = false →
      sucesso (consultar_cnpj_receitaws w cnpj).1 = true →
      (consultar_cnpj_multiplas_fontes w cnpj).1 = (consultar_cnpj_receitaws w cnpj).1 ∧
      ∀ q ∈ (consultar_cnpj_multiplas_fontes w cnpj).2, q.fonte ≠ Fonte.cnpjws) ∧
    (sucesso (consultar_cnpj_brasilapi w cnpj).1 = false →
      sucesso (consultar_cnpj_receitaws w cnpj).1 = false →
      (consultar_cnpj_multiplas_fontes w cnpj).1 =
        (if sucesso (consultar_cnpj_cnpjws w cnpj).1 = true then
          (consultar_cnpj_cnpjws w cnpj).1 else none)) := by
  refine ⟨fun hb => ?_, fun hb hr => ?_, fun hb hr => ?_⟩
  · have he : consultar_cnpj_multiplas_fontes w cnpj = consultar_cnpj_brasilapi w cnpj := by
      simp [consultar_cnpj_multiplas_fontes, apis, loop_apis, hb]
    exact ⟨he, by rw [he]; exact fonte_log_brasilapi w cnpj⟩
  · have he : consultar_cnpj_multiplas_fontes w cnpj =
        ((consultar_cnpj_receitaws w cnpj).1,
          (consultar_cnpj_brasilapi w cnpj).2 ++ (consultar_cnpj_receitaws w cnpj).2) := by
      simp [consultar_cnpj_multiplas_fontes, apis, loop_apis, hb, hr]
    refine ⟨by rw [he], ?_⟩
    rw [he]
    intro q hq
    rcases List.mem_append.mp hq with hql | hqr
    · rw [fonte_log_brasilapi w cnpj q hql]; intro hcontra; cases hcontra
    · rw [fonte_log_receitaws w cnpj q hqr]; intro hcontra; cases hcontra
  · by_cases hc : sucesso (consultar_cnpj_cnpjws w cnpj).1 = true
    · simp [consultar_cnpj_multiplas_fontes, apis, loop_apis, hb, hr, hc]
    · have hc' : sucesso (consultar_cnpj_cnpjws w cnpj).1 = false := by
        simpa using hc
      simp [consultar_cnpj_multiplas_fontes, apis, loop_apis, hb, hr, hc']

/-- Witness for C1: with BrasilAPI answering, the lookup returns exactly the
BrasilAPI result. -/
theorem multiplas_fontes_prioridade_witness :
    sucesso (consultar_cnpj_brasilapi mundo_brasil_ok (some "19131243000197")).1 = true ∧
    consultar_cnpj_multiplas_fontes mundo_brasil_ok (some "19131243000197") =
      consultar_cnpj_brasilapi mundo_brasil_ok (some "19131243000197") :=
  ⟨by decide,
    ((multiplas_fontes_prioridade mundo_brasil_ok (some "19131243000197")).1 (by decide)).1⟩

/-- C2: a failing provider never aborts the lookup — an exception in the loop
is skipped (`continue`), and the lookup returns the empty record exactly when
all three providers failed or returned no usable match. -/
theorem multiplas_fontes_nunca_aborta (w : World) (cnpj : Option String) :
    ((consultar_cnpj_multiplas_fontes w cnpj).1 = none ↔
      sucesso (consultar_cnpj_brasilapi w cnpj).1 = false ∧
      sucesso (consultar_cnpj_receitaws w cnpj).1 = false ∧
      sucesso (consultar_cnpj_cnpjws w cnpj).1 = false) ∧
    (sucesso (consultar_cnpj_brasilapi w cnpj).1 = false →
      (consultar_cnpj_multiplas_fontes w cnpj).1 =
        (loop_apis w cnpj [consultar_cnpj_receitaws, consultar_cnpj_cnpjws]).1) ∧
    (∀ antes depois : List (Except Unit (Option Registro)),
      loop_resultados (antes ++ Except.error () :: depois) =
        loop_resultados (antes ++ depois)) := by
  refine ⟨?_, ?_, ?_⟩
  · by_cases hb : sucesso (consultar_cnpj_brasilapi w cnpj).1 = true
    · simp [consultar_cnpj_multiplas_fontes, apis, loop_apis, hb, sucesso_ne_none hb]
    · have hb' : sucesso (consultar_cnpj_brasilapi w cnpj).1 = false := by simpa using hb
      by_cases hr : sucesso (consultar_cnpj_receitaws w cnpj).1 = true
      · simp [consultar_cnpj_multiplas_fontes, apis, loop_apis, hb', hr, sucesso_ne_none hr]
      · have hr' : sucesso (consultar_cnpj_receitaws w cnpj).1 = false := by simpa using hr
        by_cases hc : sucesso (consultar_cnpj_cnpjws w cnpj).1 = true
        · simp [consultar_cnpj_multiplas_fontes, apis, loop_apis, hb', hr', hc,
            sucesso_ne_none hc]
        · have hc' : sucesso (consultar_cnpj_cnpjws w cnpj).1 = false := by simpa using hc
          simp [consultar_cnpj_multiplas_fontes, apis, loop_apis, hb', hr', hc']
  · intro hb
    simp [consultar_cnpj_multiplas_fontes, apis, loop_apis, hb]
  · intro antes depois
    induction antes with
    | nil => rfl
    | cons a t ih =>
        cases a with
        | error e => simpa [loop_resultados] using ih
        | ok resultado =>
            by_cases hs : sucesso resultado = true <;>
              simp [loop_resultados, hs, ih]

/-- Witness for C2: with BrasilAPI failing, the lookup continues into the
loop over the two remaining providers. -/
theorem multiplas_fontes_nunca_aborta_witness :
    sucesso (consultar_cnpj_brasilapi mundo_falha (some "12345678000195")).1 = false ∧
    (consultar_cnpj_multiplas_fontes mundo_falha (some "12345678000195")).1 =
      (loop_apis mundo_falha (some "12345678000195")
        [consultar_cnpj_receitaws, consultar_cnpj_cnpjws]).1 :=
  ⟨by decide,
    (multiplas_fontes_nunca_aborta mundo_falha (some "12345678000195")).2.1 (by decide)⟩

/-- C10: an input that does not clean to exactly 14 digits makes every
registry adapter — and hence the multi-source lookup — return the empty
record with an empty request log (no outbound HTTP request). -/
theorem cnpj_invalido_sem_requisicao (w : World) (cnpj : Option String)
    (h : (limpa_cnpj cnpj).length ≠ 14) :
    consultar_cnpj_brasilapi w cnpj = (none, []) ∧
    consultar_cnpj_receitaws w cnpj = (none, []) ∧
    consultar_cnpj_cnpjws w cnpj = (none, []) ∧
    consultar_cnpj_multiplas_fontes w cnpj = (none, []) := by
  have hb : consultar_cnpj_brasilapi w cnpj = (none, []) := by
    simp [consultar_cnpj_brasilapi, h]
  have hr : consultar_cnpj_receitaws w cnpj = (none, []) := by
    simp [consultar_cnpj_receitaws, h]
  have hc : consultar_cnpj_cnpjws w cnpj = (none, []) := by
    simp [consultar_cnpj_cnpjws, h]
  refine ⟨hb, hr, hc, ?_⟩
  simp [consultar_cnpj_multiplas_fontes, apis, loop_apis, hb, hr, hc, sucesso]

/-- Witness for C10 at the 3-digit input `"123"` in a failing world. -/
theorem cnpj_invalido_sem_requisicao_witness :
    (limpa_cnpj (some "123")).length ≠ 14 ∧
    consultar_cnpj_multiplas_fontes mundo_falha (some "123") = (none, []) :=
  ⟨by decide, (cnpj_invalido_sem_requisicao mundo_falha (some "123") (by decide)).2.2.2⟩

/-- Stripping whitespace keeps a non-whitespace head character in place. -/
lemma strip_espacos_head {s : String} {c : Char} {t : List Char}
    (hs : s.data = c :: t) (hc : Char.isWhitespace c = false) :
    ∃ resto : List Char, (strip_espacos s).data = c :: resto := by
  have hgoal : (strip_espacos s).data =
      ((s.data.dropWhile Char.isWhitespace).reverse.dropWhile Char.isWhitespace).reverse := rfl
  rw [hgoal, hs, List.dropWhile_cons, if_neg (by simp [hc])]
  rw [List.reverse_cons, List.dropWhile_append]
  by_cases hemp : ((t.reverse).dropWhile Char.isWhitespace).isEmpty = true
  · rw [if_pos hemp]
    refine ⟨[], ?_⟩
    rw [List.dropWhile_cons]
    rw [if_neg (by simp [hc])]
    simp
  · rw [if_neg hemp]
    exact ⟨(t.reverse.dropWhile Char.isWhitespace).reverse, by simp⟩

lemma paren_nao_digito : Char.isDigit '(' = false := by decide

/-- C8 (amended): no digits-only phone normalization happens — whenever
BrasilAPI or CNPJ.ws supply an area code (and number), the stored phone is the
"(ddd) number" display string, which is not digits-only, and ReceitaWS's
phone string is stored verbatim (with the blank placeholder mapped to ""). -/
theorem telefone_sem_normalizacao :
    (∀ d : BrasilData, d.ddd_telefone_1 ≠ "" →
      ((registro_brasilapi d).telefone.data.all Char.isDigit) = false) ∧
    (∀ d : CnpjWsData, d.ddd1 ≠ "" → d.telefone1 ≠ "" →
      ((registro_cnpjws d).telefone.data.all Char.isDigit) = false) ∧
    (∀ d : ReceitaData, (registro_receitaws d).map Registro.telefone =
      if d.status = "ERROR" then none
      else some (if d.telefone ≠ "" ∧ d.telefone ≠ "(  )     -     " then d.telefone
        else "")) := by
  refine ⟨fun d hd => ?_, fun d h1 h2 => ?_, fun d => ?_⟩
  · have htel : (registro_brasilapi d).telefone =
        strip_espacos ("(" ++ d.ddd_telefone_1 ++ ") " ++ d.telefone_1) := by
      simp [registro_brasilapi, hd]
    have hs : ("(" ++ d.ddd_telefone_1 ++ ") " ++ d.telefone_1).data =
        '(' :: (d.ddd_telefone_1.data ++ ([')', ' '] ++ d.telefone_1.data)) := by
      simp only [String.data_append, List.append_assoc]; rfl
    obtain ⟨resto, hr⟩ := strip_espacos_head hs (by decide)
    rw [htel, hr]
    simp [List.all_cons, paren_nao_digito]
  · have htel : (registro_cnpjws d).telefone = "(" ++ d.ddd1 ++ ") " ++ d.telefone1 := by
      simp [registro_cnpjws, h1, h2]
    have hs : ("(" ++ d.ddd1 ++ ") " ++ d.telefone1).data =
        '(' :: (d.ddd1.data ++ ([')', ' '] ++ d.telefone1.data)) := by
      simp only [String.data_append, List.append_assoc]; rfl
    rw [htel, hs]
    simp [List.all_cons, paren_nao_digito]
  · by_cases hst : d.status = "ERROR"
    · simp [registro_receitaws, hst]
    · by_cases htel : d.telefone ≠ "" ∧ d.telefone ≠ "(  )     -     " <;>
        simp [registro_receitaws, hst, htel]

/-- Witness for the amended C8 at the sample BrasilAPI payload. -/
theorem telefone_sem_normalizacao_witness :
    dados_brasil_exemplo.ddd_telefone_1 ≠ "" ∧
    ((registro_brasilapi dados_brasil_exemplo).telefone.data.all Char.isDigit) = false :=
  ⟨by decide, telefone_sem_normalizacao.1 dados_brasil_exemplo (by decide)⟩

/-- Counterexample to C8 as stated: the stored phone for a BrasilAPI answer
with area code 91 and number 32313232 is the string "(91) 32313232", which is
not digits-only. -/
theorem telefone_nao_digitos_contra :
    ((consultar_cnpj_brasilapi mundo_brasil_ok (some "19131243000197")).1.map
      Registro.telefone) = some "(91) 32313232" ∧
    ("(91) 32313232").data.all Char.isDigit = false := by
  exact ⟨by decide, by decide⟩

/-- ASCII `str.lower()`. -/
def minusculas (s : String) : String := String.mk (s.data.map Char.toLower)

/-- Does `pat` occur at the start of the text? -/
def eh_prefixo : List Char → List Char → Bool
  | [], _ => true
  | _ :: _, [] => false
  | a :: resto_a, b :: resto_b => a == b && eh_prefixo resto_a resto_b

/-- `re.search` of a literal pattern: does `pat` occur anywhere in the text? -/
def ocorre (pat : List Char) : List Char → Bool
  | [] => pat.isEmpty
  | c :: resto => eh_prefixo pat (c :: resto) || ocorre pat resto

/-- `re.search(r"(\d{14})", s)`: the leftmost run of 14 consecutive digits. -/
def busca14 : List Char → Option (List Char)
  | [] => none
  | c :: resto =>
      if ((c :: resto).take 14).length = 14 ∧ ((c :: resto).take 14).all Char.isDigit then
        some ((c :: resto).take 14)
      else busca14 resto

/-- A discovery stub as built by the scrapers: the "Nome", "CNPJ" and
"Origem" keys. -/
structure Empresa where
  nome : String
  cnpj : String
  origem : String
deriving DecidableEq, Repr

/-- The link loop of `buscar_empresas_cnpja_scraping` (lines 257-270): from
the first `max_empresas` anchors, keep those whose href holds a 14-digit run
and whose text is non-empty. -/
def extrai_empresas_links (links : List Link) (max_empresas : Nat) (cnae_code : String) :
    List Empresa :=
  (links.take max_empresas).filterMap fun link =>
    match busca14 link.href.data with
    | none => none
    | some ds =>
        let cnpj := String.mk ds
        let nome := link.texto
        if nome ≠ "" ∧ cnpj ≠ "" then
          some ⟨nome, cnpj, "CNPJá - CNAE " ++ cnae_code⟩
        else none

/-- The table fallback of `buscar_empresas_cnpja_scraping` (lines 273-289):
for each table, rows `[1:max_empresas]` with at least two cells whose second
cell cleans to 14 digits. -/
def extrai_empresas_tabelas (tabelas : List (List (List String))) (max_empresas : Nat)
    (cnae_code : String) : List Empresa :=
  tabelas.flatMap fun tabela =>
    ((tabela.drop 1).take (max_empresas - 1)).filterMap fun linha =>
      if linha.length ≥ 2 then
        let possivel_nome := linha.getD 0 ""
        let possivel_cnpj := linha.getD 1 ""
        let cnpj_numeros := limpa_cnpj (some possivel_cnpj)
        if cnpj_numeros.length = 14 then
          some ⟨possivel_nome, cnpj_numeros, "CNPJá Tabela - CNAE " ++ cnae_code⟩
        else none
      else none

/-- `buscar_empresas_cnpja_scraping` (lines 227-295): `none` from the page
oracle is `http_get` failing (the adapter returns `[]`; a parse exception,
also caught to `[]`, is subsumed).  `uf` is accepted and unused, as in the
source. -/
def buscar_empresas_cnpja_scraping (w : World) (cnae_code uf : String) (max_empresas : Nat) :
    List Empresa :=
  match w.pagina_cnpja (so_digitos cnae_code) with
  | none => []
  | some pagina =>
      let links_e := pagina.links.filter fun l => ocorre "/empresa/".data l.href.data
      let links_empresas :=
        if links_e.isEmpty then pagina.links.filter fun l => ocorre "/cnpj/".data l.href.data
        else links_e
      let empresas := extrai_empresas_links links_empresas max_empresas cnae_code
      if empresas.isEmpty then extrai_empresas_tabelas pagina.tabelas max_empresas cnae_code
      else empresas

/-- The card loop of `buscar_empresas_consultacnpj_alternativo` (lines
320-336): from the first `max_empresas` cards with a name element, keep those
with non-empty name whose document text cleans to 14 digits. -/
def extrai_empresas_cards (cards : List Card) (max_empresas : Nat) (cnae_code : String) :
    List Empresa :=
  (cards.take max_empresas).filterMap fun card =>
    match card.nome with
    | none => none
    | some nome =>
        let cnpj_texto := card.cnpj_texto.getD ""
        let cnpj_nums := limpa_cnpj (some cnpj_texto)
        if nome ≠ "" ∧ cnpj_nums.length = 14 then
          some ⟨nome, cnpj_nums, "ConsultaCNPJ - CNAE " ++ cnae_code⟩
        else none

/-- The `for url in urls_tentativas` loop (lines 312-345): try each URL
variant in order; a failed request or an empty extraction moves to the next
variant; the first non-empty extraction is returned, else `[]`. -/
def loop_urls (w : World) (cnae_code uf : String) (max_empresas : Nat) : List Nat → List Empresa
  | [] => []
  | idx :: resto =>
      match w.pagina_consulta (so_digitos cnae_code) (minusculas uf) idx with
      | none => loop_urls w cnae_code uf max_empresas resto
      | some pagina =>
          let empresas := extrai_empresas_cards pagina.cards max_empresas cnae_code
          if empresas.isEmpty then loop_urls w cnae_code uf max_empresas resto
          else empresas

/-- `buscar_empresas_consultacnpj_alternativo` (lines 297-345); the four
literal URL variants of `urls_tentativas` are abstracted to indices 0-3. -/
def buscar_empresas_consultacnpj_alternativo (w : World) (cnae_code uf : String)
    (max_empresas : Nat) : List Empresa :=
  loop_urls w cnae_code uf max_empresas [0, 1, 2, 3]

/-- One CNAE entry (`codigo`/`descricao`) as produced by
`encontrar_cnaes_mineracao` or the IBGE search. -/
structure Cnae where
  codigo : String
  descricao : String
deriving DecidableEq, Repr

/-- The CNPJ collection loop of `main` (lines 472-489): for the first
`max_cnaes` CNAEs, concatenate both scrapers' results plus, when the
checkbox is on, a batch of simulated stubs.  `simuladas` is the randomness
oracle standing for `gerar_cnpjs_simulados_mineracao(uf, 3)` at iteration
`i`. -/
def etapa_descoberta (w : World) (cnaes : List Cnae) (uf : String)
    (max_cnaes max_empresas_por_cnae : Nat) (incluir_simulados : Bool)
    (simuladas : Nat → List Empresa) : List Empresa :=
  ((cnaes.take max_cnaes).enum).flatMap fun par =>
    buscar_empresas_cnpja_scraping w par.2.codigo uf max_empresas_por_cnae ++
    buscar_empresas_consultacnpj_alternativo w par.2.codigo uf max_empresas_por_cnae ++
    (if incluir_simulados then simuladas par.1 else [])

/-- The duplicate-removal loop of `main` (lines 494-501): keep the first
occurrence of each non-empty cleaned CNPJ; `vistos` is `cnpjs_vistos`. -/
def remove_duplicatas_aux (vistos : List String) : List Empresa → List Empresa
  | [] => []
  | emp :: resto =>
      let cnpj := limpa_cnpj (some emp.cnpj)
      if cnpj ≠ "" ∧ cnpj ∉ vistos then
        emp :: remove_duplicatas_aux (cnpj :: vistos) resto
      else
        remove_duplicatas_aux vistos resto

/-- The deduplication pass of `main` on the collected stubs. -/
def remove_duplicatas (l : List Empresa) : List Empresa := remove_duplicatas_aux [] l

/-- The enrichment loop of `main` (lines 516-529): per unique stub, run the
multi-source lookup; a non-empty result gets the "Origem da Descoberta" key
and is appended, an empty result is skipped. -/
def etapa_enriquecimento (w : World) : List Empresa → List Registro
  | [] => []
  | empresa :: resto =>
      match (consultar_cnpj_multiplas_fontes w (some empresa.cnpj)).1 with
      | some dados =>
          { dados with origemDescoberta := empresa.origem } :: etapa_enriquecimento w resto
      | none => etapa_enriquecimento w resto

/-- Outcome of one real-search run of `main`: `erroNenhumaEmpresa` is the
`st.error` + early `return` of lines 503-505, `concluido` the stored
`resultados_finais`. -/
inductive ResultadoPipeline where
  | erroNenhumaEmpresa : ResultadoPipeline
  | concluido : List Registro → ResultadoPipeline
deriving DecidableEq, Repr

/-- The real-search pipeline of `main` (lines 463-534): discovery over the
chosen CNAEs, dedup by CNPJ, abort when nothing found, else enrichment. -/
def executar_pipeline (w : World) (cnaes : List Cnae) (uf : String)
    (max_cnaes max_empresas_por_cnae : Nat) (incluir_simulados : Bool)
    (simuladas : Nat → List Empresa) : ResultadoPipeline :=
  let todas_empresas :=
    etapa_descoberta w cnaes uf max_cnaes max_empresas_por_cnae incluir_simulados simuladas
  let empresas_unicas := remove_duplicatas todas_empresas
  if empresas_unicas.isEmpty then .erroNenhumaEmpresa
  else .concluido (etapa_enriquecimento w empresas_unicas)

lemma remove_duplicatas_aux_cons_pos {vistos : List String} {emp : Empresa}
    (resto : List Empresa)
    (h : limpa_cnpj (some emp.cnpj) ≠ "" ∧ limpa_cnpj (some emp.cnpj) ∉ vistos) :
    remove_duplicatas_aux vistos (emp :: resto) =
      emp :: remove_duplicatas_aux (limpa_cnpj (some emp.cnpj) :: vistos) resto := by
  simp [remove_duplicatas_aux, h]

lemma remove_duplicatas_aux_cons_neg {vistos : List String} {emp : Empresa}
    (resto : List Empresa)
    (h : ¬ (limpa_cnpj (some emp.cnpj) ≠ "" ∧ limpa_cnpj (some emp.cnpj) ∉ vistos)) :
    remove_duplicatas_aux vistos (emp :: resto) = remove_duplicatas_aux vistos resto := by
  simp only [remove_duplicatas_aux, if_neg h]

lemma remove_duplicatas_aux_sublist (vistos : List String) (l : List Empresa) :
    (remove_duplicatas_aux vistos l).Sublist l := by
  induction l generalizing vistos with
  | nil => simp [remove_duplicatas_aux]
  | cons emp resto ih =>
      by_cases h : limpa_cnpj (some emp.cnpj) ≠ "" ∧ limpa_cnpj (some emp.cnpj) ∉ vistos
      · rw [remove_duplicatas_aux_cons_pos resto h]
        exact (ih _).cons₂ emp
      · rw [remove_duplicatas_aux_cons_neg resto h]
        exact (ih _).cons emp

lemma mem_remove_duplicatas_aux {vistos : List String} {l : List Empresa} {e : Empresa}
    (he : e ∈ remove_duplicatas_aux vistos l) :
    limpa_cnpj (some e.cnpj) ≠ "" ∧ limpa_cnpj (some e.cnpj) ∉ vistos := by
  induction l generalizing vistos with
  | nil => simp [remove_duplicatas_aux] at he
  | cons emp resto ih =>
      by_cases h : limpa_cnpj (some emp.cnpj) ≠ "" ∧ limpa_cnpj (some emp.cnpj) ∉ vistos
      · rw [remove_duplicatas_aux_cons_pos resto h] at he
        rcases List.mem_cons.mp he with rfl | hmem
        · exact h
        · have hrec := ih hmem
          exact ⟨hrec.1, fun hv => hrec.2 (List.mem_cons_of_mem _ hv)⟩
      · rw [remove_duplicatas_aux_cons_neg resto h] at he
        exact ih he

lemma pairwise_remove_duplicatas_aux (vistos : List String) (l : List Empresa) :
    (remove_duplicatas_aux vistos l).Pairwise
      (fun a b => limpa_cnpj (some a.cnpj) ≠ limpa_cnpj (some b.cnpj)) := by
  induction l generalizing vistos with
  | nil => simp [remove_duplicatas_aux]
  | cons emp resto ih =>
      by_cases h : limpa_cnpj (some emp.cnpj) ≠ "" ∧ limpa_cnpj (some emp.cnpj) ∉ vistos
      · rw [remove_duplicatas_aux_cons_pos resto h]
        refine List.Pairwise.cons ?_ (ih _)
        intro b hb heq
        exact (mem_remove_duplicatas_aux hb).2 (heq ▸ List.mem_cons_self _ _)
      · rw [remove_duplicatas_aux_cons_neg resto h]
        exact ih _

lemma cobre_remove_duplicatas_aux (l : List Empresa) (e : Empresa) :
    ∀ vistos : List String, e ∈ l → limpa_cnpj (some e.cnpj) ≠ "" →
    limpa_cnpj (some e.cnpj) ∉ vistos →
    ∃ e2 ∈ remove_duplicatas_aux vistos l,
      limpa_cnpj (some e2.cnpj) = limpa_cnpj (some e.cnpj) := by
  induction l with
  | nil => intro vistos he _ _; cases he
  | cons emp resto ih =>
      intro vistos he hne hnv
      by_cases h : limpa_cnpj (some emp.cnpj) ≠ "" ∧ limpa_cnpj (some emp.cnpj) ∉ vistos
      · rw [remove_duplicatas_aux_cons_pos resto h]
        rcases List.mem_cons.mp he with heq | hmem
        · exact ⟨emp, List.mem_cons_self _ _, by rw [heq]⟩
        · by_cases heq : limpa_cnpj (some e.cnpj) = limpa_cnpj (some emp.cnpj)
          · exact ⟨emp, List.mem_cons_self _ _, heq.symm⟩
          · obtain ⟨e2, h2, hq⟩ := ih (limpa_cnpj (some emp.cnpj) :: vistos) hmem hne
              (by simp [hnv, heq])
            exact ⟨e2, List.mem_cons_of_mem _ h2, hq⟩
      · rw [remove_duplicatas_aux_cons_neg resto h]
        rcases List.mem_cons.mp he with heq | hmem
        · exact absurd ⟨heq ▸ hne, heq ▸ hnv⟩ h
        · exact ih vistos hmem hne hnv

lemma find_remove_duplicatas_aux (l : List Empresa) :
    ∀ vistos : List String, ∀ e ∈ remove_duplicatas_aux vistos l,
      l.find? (fun x => limpa_cnpj (some x.cnpj) == limpa_cnpj (some e.cnpj)) = some e := by
  induction l with
  | nil => intro vistos e he; simp [remove_duplicatas_aux] at he
  | cons emp resto ih =>
      intro vistos e he
      by_cases h : limpa_cnpj (some emp.cnpj) ≠ "" ∧ limpa_cnpj (some emp.cnpj) ∉ vistos
      · rw [remove_duplicatas_aux_cons_pos resto h] at he
        rcases List.mem_cons.mp he with heq | hmem
        · subst heq
          exact List.find?_cons_of_pos _ (by simp)
        · have hkey := (mem_remove_duplicatas_aux hmem).2
          have hne : (limpa_cnpj (some emp.cnpj) == limpa_cnpj (some e.cnpj)) = false := by
            rw [beq_eq_false_iff_ne]
            intro hc
            exact hkey (hc ▸ List.mem_cons_self _ _)
          rw [List.find?_cons_of_neg _ (by simp [hne])]
          exact ih (limpa_cnpj (some emp.cnpj) :: vistos) e hmem
      · rw [remove_duplicatas_aux_cons_neg resto h] at he
        have hx := mem_remove_duplicatas_aux he
        have hne : (limpa_cnpj (some emp.cnpj) == limpa_cnpj (some e.cnpj)) = false := by
          rw [beq_eq_false_iff_ne]
          intro hc
          exact h ⟨by rw [hc]; exact hx.1, by rw [hc]; exact hx.2⟩
        rw [List.find?_cons_of_neg _ (by simp [hne])]
        exact ih vistos e he

lemma remove_duplicatas_aux_fixo (l : List Empresa) :
    ∀ vistos : List String, (∀ e ∈ l, limpa_cnpj (some e.cnpj) ≠ "") →
    l.Pairwise (fun a b => limpa_cnpj (some a.cnpj) ≠ limpa_cnpj (some b.cnpj)) →
    (∀ e ∈ l, limpa_cnpj (some e.cnpj) ∉ vistos) →
    remove_duplicatas_aux vistos l = l := by
  induction l with
  | nil => intro vistos _ _ _; rfl
  | cons emp resto ih =>
      intro vistos hall hpair hdisj
      have h : limpa_cnpj (some emp.cnpj) ≠ "" ∧ limpa_cnpj (some emp.cnpj) ∉ vistos :=
        ⟨hall emp (List.mem_cons_self _ _), hdisj emp (List.mem_cons_self _ _)⟩
      rw [remove_duplicatas_aux_cons_pos resto h]
      congr 1
      refine ih (limpa_cnpj (some emp.cnpj) :: vistos)
        (fun e he => hall e (List.mem_cons_of_mem _ he))
        ((List.pairwise_cons.mp hpair).2) (fun e he hv => ?_)
      rcases List.mem_cons.mp hv with heq | hv2
      · exact (List.pairwise_cons.mp hpair).1 e he heq.symm
      · exact hdisj e (List.mem_cons_of_mem _ he) hv2

/-- The two discovery stubs of the spec's dedupe scenario, with distinct
registration numbers. -/
def acme1 : Empresa := ⟨"Acme Dental", "11222333000181", ""⟩

/-- Same display name as `acme1` up to case, different CNPJ. -/
def acme2 : Empresa := ⟨"acme dental", "44555666000172", ""⟩

/-- Collapse whitespace runs to single blanks (`prev` records whether the
previous kept character was a blank). -/
def colapsa_aux : Bool → List Char → List Char
  | _, [] => []
  | prev, c :: resto =>
      if c.isWhitespace then
        if prev then colapsa_aux true resto
        else ' ' :: colapsa_aux true resto
      else c :: colapsa_aux false resto

/-- Modelled from the spec: the name normalization the spec's deduplication
rule quotes ("case-insensitive, punctuation-insensitive,
whitespace-collapsed").  `app.py` contains no such function; this definition
follows the spec's words, for comparison with the code's dedup key. -/
def nome_normalizado_spec (s : String) : String :=
  let sem_pontuacao := (s.data.map Char.toLower).filter fun c => c.isAlphanum || c.isWhitespace
  strip_espacos (String.mk (colapsa_aux true sem_pontuacao))

/-- Counterexample to C4 as stated: two stubs with equal normalized names and
no addresses are not treated as duplicates — the code keys duplicates on the
CNPJ, and both records survive unmerged. -/
theorem dedupe_por_nome_contra :
    nome_normalizado_spec acme1.nome = nome_normalizado_spec acme2.nome ∧
    remove_duplicatas [acme1, acme2] = [acme1, acme2] :=
  ⟨by decide, by decide⟩

/-- C4 (amended): within a run, two stubs are duplicates exactly when their
cleaned CNPJs are equal and non-empty; the first-discovered record is kept
verbatim (no field merge), later duplicates are discarded, and stubs whose
CNPJ cleans to the empty string are dropped.  The last conjunct pins down
which duplicate survives: every kept record is the first input record
carrying its cleaned CNPJ. -/
theorem dedupe_por_cnpj (l : List Empresa) :
    (remove_duplicatas l).Sublist l ∧
    (remove_duplicatas l).Pairwise
      (fun a b => limpa_cnpj (some a.cnpj) ≠ limpa_cnpj (some b.cnpj)) ∧
    (∀ e ∈ remove_duplicatas l, limpa_cnpj (some e.cnpj) ≠ "") ∧
    (∀ e ∈ l, limpa_cnpj (some e.cnpj) ≠ "" →
      ∃ e2 ∈ remove_duplicatas l,
        limpa_cnpj (some e2.cnpj) = limpa_cnpj (some e.cnpj)) ∧
    (∀ e ∈ remove_duplicatas l,
      l.find? (fun x => limpa_cnpj (some x.cnpj) == limpa_cnpj (some e.cnpj)) = some e) := by
  refine ⟨remove_duplicatas_aux_sublist [] l, pairwise_remove_duplicatas_aux [] l,
    fun e he => (mem_remove_duplicatas_aux he).1, fun e he hne => ?_,
    find_remove_duplicatas_aux l [] ⟩
  exact cobre_remove_duplicatas_aux l e [] he hne (by simp)

/-- Two distinct stubs with the same cleaned CNPJ (one punctuated, one bare). -/
def dup1 : Empresa := ⟨"Mineradora A", "11.111.111/1111-11", "CNPJá - CNAE 0710-3/01"⟩

/-- A later duplicate of `dup1`: same cleaned CNPJ, different name and origin. -/
def dup2 : Empresa := ⟨"Mineradora A LTDA", "11111111111111", "CNPJá Tabela - CNAE 0710-3/01"⟩

/-- Witness for the amended C4 on an actual duplicate pair: the records are
distinct, share one cleaned CNPJ, the first is kept verbatim, the later one
is discarded, and the keep-first conjunct of the theorem applies to the
survivor. -/
theorem dedupe_por_cnpj_witness :
    limpa_cnpj (some dup1.cnpj) = limpa_cnpj (some dup2.cnpj) ∧ dup1 ≠ dup2 ∧
    remove_duplicatas [dup1, dup2] = [dup1] ∧
    dup1 ∈ remove_duplicatas [dup1, dup2] ∧
    [dup1, dup2].find?
      (fun x => limpa_cnpj (some x.cnpj) == limpa_cnpj (some dup1.cnpj)) = some dup1 :=
  ⟨by decide, by decide, by decide, by decide,
    (dedupe_por_cnpj [dup1, dup2]).2.2.2.2 dup1 (by decide)⟩

/-- C5: the deduplication pass is idempotent, and its output preserves the
relative discovery order of the records it keeps (it is a sublist of its
input). -/
theorem remove_duplicatas_idempotente (l : List Empresa) :
    remove_duplicatas (remove_duplicatas l) = remove_duplicatas l ∧
    (remove_duplicatas l).Sublist l := by
  refine ⟨?_, remove_duplicatas_aux_sublist [] l⟩
  refine remove_duplicatas_aux_fixo (remove_duplicatas l) []
    (fun e he => (mem_remove_duplicatas_aux he).1)
    (pairwise_remove_duplicatas_aux [] l) (fun e _ => by simp)

/-- Counterexample to C3 as stated: when every registry provider fails, the
enrichment loop of `main` drops the Lead from the output instead of keeping a
minimally-enriched record. -/
theorem enriquecimento_descarta_lead_contra :
    (consultar_cnpj_multiplas_fontes mundo_falha (some "12345678000195")).1 = none ∧
    etapa_enriquecimento mundo_falha
      [⟨"Mineradora Teste", "12345678000195", "CNPJa Tabela - CNAE 0710-3/01"⟩] = [] :=
  ⟨by decide, by decide⟩

/-- C3 (amended): the enrichment pass keeps exactly the Leads whose
multi-source lookup returns a non-empty record (tagged with the discovery
origin); Leads for which every provider fails or returns no match are
dropped — in particular, when every lookup fails the output is empty — so
the output never exceeds the input in length. -/
theorem enriquecimento_filtra (w : World) (empresas : List Empresa) :
    etapa_enriquecimento w empresas = empresas.filterMap (fun e =>
      ((consultar_cnpj_multiplas_fontes w (some e.cnpj)).1).map
        (fun dados => { dados with origemDescoberta := e.origem })) ∧
    (etapa_enriquecimento w empresas).length ≤ empresas.length ∧
    ((∀ e ∈ empresas, (consultar_cnpj_multiplas_fontes w (some e.cnpj)).1 = none) →
      etapa_enriquecimento w empresas = []) := by
  have heq : etapa_enriquecimento w empresas = empresas.filterMap (fun e =>
      ((consultar_cnpj_multiplas_fontes w (some e.cnpj)).1).map
        (fun dados => { dados with origemDescoberta := e.origem })) := by
    induction empresas with
    | nil => rfl
    | cons e resto ih =>
        cases h : (consultar_cnpj_multiplas_fontes w (some e.cnpj)).1 <;>
          simp [etapa_enriquecimento, List.filterMap_cons, h, ih]
  refine ⟨heq, heq ▸ List.length_filterMap_le _ _, fun hall => ?_⟩
  rw [heq]
  refine List.filterMap_eq_nil_iff.mpr fun e he => ?_
  rw [hall e he]
  rfl

/-- A discovery stub whose CNPJ cleans to 14 digits. -/
def empresa_teste : Empresa := ⟨"Mineradora Teste", "12345678000195", "CNPJa - CNAE 0710-3/01"⟩

/-- Witness for the amended C3: in a world where every provider fails, the
all-lookups-fail hypothesis holds for a concrete one-stub list and the
enrichment output is empty. -/
theorem enriquecimento_filtra_witness :
    (∀ e ∈ [empresa_teste],
      (consultar_cnpj_multiplas_fontes mundo_falha (some e.cnpj)).1 = none) ∧
    etapa_enriquecimento mundo_falha [empresa_teste] = [] :=
  ⟨by decide, (enriquecimento_filtra mundo_falha [empresa_teste]).2.2 (by decide)⟩

/-- A consultacnpj.com page with one well-formed company card. -/
def pagina_consulta_exemplo : PaginaConsulta :=
  ⟨[⟨some "Mineradora Parauapebas LTDA", some "11.222.333/0001-81"⟩]⟩

/-- A world where the cnpja.com request fails but the first consultacnpj.com
URL variant answers; every registry endpoint fails. -/
def mundo_descoberta_parcial : World :=
  { brasilapi := fun _ => .fail
    receitaws := fun _ => .fail
    cnpjws := fun _ => .fail
    pagina_cnpja := fun _ => none
    pagina_consulta := fun _ _ idx => if idx = 0 then some pagina_consulta_exemplo else none }

/-- The first predefined mining CNAE. -/
def cnae_ferro : Cnae := ⟨"0710-3/01", "Extracao de minerio de ferro"⟩

/-- Counterexample to C6 as stated: a transport failure at the cnpja.com
discovery source yields `[]` from that adapter and the run completes (here
with zero enriched rows) instead of failing with a `DiscoveryFailure`. -/
theorem descoberta_falha_nao_aborta_contra :
    mundo_descoberta_parcial.pagina_cnpja (so_digitos "0710-3/01") = none ∧
    buscar_empresas_cnpja_scraping mundo_descoberta_parcial "0710-3/01" "PA" 15 = [] ∧
    executar_pipeline mundo_descoberta_parcial [cnae_ferro] "PA" 5 15 false (fun _ => []) =
      ResultadoPipeline.concluido [] :=
  ⟨rfl, by decide, by decide⟩

/-- C6 (amended): a transport or parse failure in a discovery adapter
produces an empty list from that adapter, and the run aborts — with a generic
"no companies" error carrying neither provider identifier nor cause — exactly
when all discovery sources over all CNAEs produced zero unique companies. -/
theorem descoberta_falha_continua (w : World) (cnae uf : String) (m : Nat)
    (cnaes : List Cnae) (maxc maxp : Nat) (inc : Bool) (sim : Nat → List Empresa) :
    (w.pagina_cnpja (so_digitos cnae) = none →
      buscar_empresas_cnpja_scraping w cnae uf m = []) ∧
    (executar_pipeline w cnaes uf maxc maxp inc sim = ResultadoPipeline.erroNenhumaEmpresa ↔
      remove_duplicatas (etapa_descoberta w cnaes uf maxc maxp inc sim) = []) := by
  constructor
  · intro h; simp [buscar_empresas_cnpja_scraping, h]
  · by_cases he :
      (remove_duplicatas (etapa_descoberta w cnaes uf maxc maxp inc sim)).isEmpty = true
    · simp [executar_pipeline, he, List.isEmpty_iff.mp he]
    · have hne : remove_duplicatas (etapa_descoberta w cnaes uf maxc maxp inc sim) ≠ [] := by
        simpa [List.isEmpty_iff] using he
      simp [executar_pipeline, he, hne]

/-- Witness for the amended C6: a failing page oracle makes the cnpja.com
adapter return the empty list. -/
theorem descoberta_falha_continua_witness :
    mundo_falha.pagina_cnpja (so_digitos "0710-3/01") = none ∧
    buscar_empresas_cnpja_scraping mundo_falha "0710-3/01" "PA" 15 = [] :=
  ⟨rfl,
    (descoberta_falha_continua mundo_falha "0710-3/01" "PA" 15 [] 0 0 false
      (fun _ => [])).1 rfl⟩

/-- A table with a header row and two well-formed data rows. -/
def tabela_exemplo : List (List String) :=
  [["Empresa", "CNPJ"],
   ["Mineradora A", "11.111.111/1111-11"],
   ["Mineradora B", "22.222.222/2222-22"]]

/-- A cnpja.com page with no company links and three tables. -/
def pagina_tres_tabelas : PaginaCnpja :=
  ⟨[], [tabela_exemplo, tabela_exemplo, tabela_exemplo]⟩

/-- A world serving the three-table page. -/
def mundo_tres_tabelas : World :=
  { brasilapi := fun _ => .fail
    receitaws := fun _ => .fail
    cnpjws := fun _ => .fail
    pagina_cnpja := fun _ => some pagina_tres_tabelas
    pagina_consulta := fun _ _ _ => none }

/-- Counterexample to C7 as stated: with cap 2 and three tables, the
table-based fallback returns 3 stubs, exceeding the cap. -/
theorem limite_excedido_contra :
    (buscar_empresas_cnpja_scraping mundo_tres_tabelas "0710-3/01" "PA" 2).length = 3 ∧
    ¬ ((buscar_empresas_cnpja_scraping mundo_tres_tabelas "0710-3/01" "PA" 2).length ≤ 2) :=
  ⟨by decide, by decide⟩

lemma extrai_empresas_links_length (links : List Link) (m : Nat) (cnae : String) :
    (extrai_empresas_links links m cnae).length ≤ m :=
  le_trans (List.length_filterMap_le _ _) (List.length_take_le _ _)

lemma extrai_empresas_tabelas_length (tabelas : List (List (List String))) (m : Nat)
    (cnae : String) :
    (extrai_empresas_tabelas tabelas m cnae).length ≤ tabelas.length * (m - 1) := by
  induction tabelas with
  | nil => simp [extrai_empresas_tabelas]
  | cons t resto ih =>
      simp only [extrai_empresas_tabelas, List.flatMap_cons, List.length_append,
        List.length_cons] at ih ⊢
      rw [Nat.succ_mul]
      exact le_trans
        (Nat.add_le_add
          (le_trans (List.length_filterMap_le _ _) (List.length_take_le _ _)) ih)
        (le_of_eq (Nat.add_comm _ _))

/-- The number of tables on the page the scraper would fetch. -/
def num_tabelas : Option PaginaCnpja → Nat
  | none => 0
  | some p => p.tabelas.length

/-- C7 (amended): the cap bounds the link-based path at `m` stubs, while the
table-based fallback is capped at `m - 1` rows per table, so the total is
bounded by `max m (tables * (m - 1))` — which can exceed `m` when several
tables are present. -/
theorem limite_por_caminho (w : World) (cnae uf : String) (m : Nat) :
    (buscar_empresas_cnpja_scraping w cnae uf m).length ≤
      Nat.max m (num_tabelas (w.pagina_cnpja (so_digitos cnae)) * (m - 1)) := by
  rcases hp : w.pagina_cnpja (so_digitos cnae) with _ | pagina
  · simp [buscar_empresas_cnpja_scraping, hp]
  · simp only [buscar_empresas_cnpja_scraping, hp, num_tabelas]
    have hbound : ∀ L : List Link,
        (if (extrai_empresas_links L m cnae).isEmpty
          then extrai_empresas_tabelas pagina.tabelas m cnae
          else extrai_empresas_links L m cnae).length ≤
        Nat.max m (pagina.tabelas.length * (m - 1)) := by
      intro L
      by_cases h : (extrai_empresas_links L m cnae).isEmpty
      · rw [if_pos h]
        exact le_trans (extrai_empresas_tabelas_length _ _ _) (Nat.le_max_right _ _)
      · rw [if_neg h]
        exact le_trans (extrai_empresas_links_length _ _ _) (Nat.le_max_left _ _)
    exact hbound _

end ConsultaCnpj
